import Mathlib

/-!
Verification of the `me-learning-opengl` repository against its
natural-language specification.

The development shallowly embeds the parts of the Rust source the claims
are about:

* `as_mem_bytes` — the byte-view adapter `SliceAsBytes::as_mem_bytes`
  (src/lib.rs lines 21-30, duplicated in src/bin/06_framebuffers_01.rs and
  src/bin/06_framebuffers_02.rs);
* the `with_window` bootstrap (src/lib.rs lines 32-131): its pre-loop
  setup, the `while !exit` render loop, and the `poll_events` closure, as
  a trace of abstract actions driven by a finite stream of event batches;
* the glutin bootstrap of src/bin/00_hello_window.rs: its per-event
  handler as a function from events to emitted actions;
* the shader compile/link status checks of the example scenes;
* the `Error::from_error_code` decoder and the post-draw `get_error`
  check of the two framebuffer examples;
* the (mis-parenthesised) framebuffer-completeness check of the two
  framebuffer examples;
* the vertex/index data and `draw_elements` calls of the two quad scenes
  (src/bin/shaders_01.rs, src/bin/05_textures_01.rs).
-/

/-! ## Graphics-API constants (glow) used by the embedded code -/

/-- glow::FRAMEBUFFER_COMPLETE = 0x8CD5. -/
def FRAMEBUFFER_COMPLETE : Nat := 36053

/-- glow::NO_ERROR. -/
def NO_ERROR : Nat := 0

/-- glow::INVALID_ENUM = 0x0500. -/
def INVALID_ENUM : Nat := 1280

/-- glow::INVALID_VALUE = 0x0501. -/
def INVALID_VALUE : Nat := 1281

/-- glow::INVALID_OPERATION = 0x0502. -/
def INVALID_OPERATION : Nat := 1282

/-- glow::INVALID_FRAMEBUFFER_OPERATION = 0x0506. -/
def INVALID_FRAMEBUFFER_OPERATION : Nat := 1286

/-- glow::OUT_OF_MEMORY = 0x0505. -/
def OUT_OF_MEMORY : Nat := 1285

/-- glow::TRIANGLES = 0x0004. -/
def TRIANGLES : Nat := 4

/-- glow::UNSIGNED_INT = 0x1405. -/
def UNSIGNED_INT : Nat := 5125

/-! ## Byte-view adapter: `SliceAsBytes::as_mem_bytes`

The Rust source (src/lib.rs:21-30):

    impl<T: AsRef<[U]>, U> SliceAsBytes<U> for T {
        fn as_mem_bytes(&self) -> &[u8] {
            unsafe {
                std::slice::from_raw_parts(
                    self.as_ref().as_ptr() as *const u8,
                    std::mem::size_of::<T>() * self.as_ref().len(),
                )
            }
        }
    }

Note the length: `size_of::<T>()` is the size of the *container* type `T`
the method was invoked on, not the element type `U`.  At every call site
in the repository the receiver is a `&[f32]` or `&[u32]`, so `T` resolves
to the reference type `&[f32]` / `&[u32]`, whose size on a 64-bit target
is 16 bytes, while the element size is 4 bytes.

We model memory from the slice's data pointer onward as a list of bytes:
the slice's own `k * s` bytes followed by whatever adjacent memory holds.
`from_raw_parts(ptr, n)` is then a view of the first `n` bytes of it. -/

/-- `as_mem_bytes sizeOfT k mem`: the byte view produced by the source,
where `sizeOfT` is `size_of::<T>()` for the container type `T` the method
is invoked on, `k` the slice length (`self.as_ref().len()`), and `mem`
the bytes of memory starting at the slice's data pointer. -/
def as_mem_bytes (sizeOfT k : Nat) (mem : List Nat) : List Nat :=
  mem.take (sizeOfT * k)

/-! ## The `with_window` bootstrap (src/lib.rs:32-131) -/

/-- Virtual key codes, as far as the source inspects them: it matches only
`VirtualKeyCode::Escape`; every other key falls through the wildcard. -/
inductive VKey where
  | escape
  | otherKey
deriving DecidableEq

/-- Events as matched by the `poll_events` closure of `with_window`
(src/lib.rs:110-128).  The closure matches `WindowEvent::Destroyed`,
`WindowEvent::CloseRequested` and a device key event whose virtual
keycode is `Some(Escape)`; everything else hits `_ => {}`.  `refresh`
stands for the window redraw-request event of this winit version, which
falls into the wildcard; `resized` stands for a window resize event,
which also falls into the wildcard. -/
inductive WEvent where
  | destroyed
  | closeRequested
  | key (virtualKeycode : Option VKey)
  | refresh
  | resized (w h : Nat)
  | otherEvent
deriving DecidableEq

/-- The actions `with_window` can perform, in the order the source
performs them.  `exitHook` (a call of `RenderHandler::exit`) and
`resizeSurface` (a surface/viewport reconfiguration) are included so the
spec's claims about them can be stated; the embedding below emits them
exactly as often as the source calls them. -/
inductive Act where
  | createContext
  | makeCurrent
  | init
  | draw
  | present
  | destroyContext
  | exitHook
  | resizeSurface (w h : Nat)
deriving DecidableEq

/-- Whether an event matches one of the three exit patterns of the
`poll_events` closure (src/lib.rs:111-126). -/
def isExitEvent : WEvent → Bool
  | .destroyed => true
  | .closeRequested => true
  | .key (some .escape) => true
  | _ => false

/-- The body of the `poll_events` closure for one event: the matching
arms run `exit = true`; the wildcard leaves `exit` unchanged. -/
def processEvent (exit : Bool) (ev : WEvent) : Bool :=
  if isExitEvent ev then true else exit

/-- One `poll_events` call: the closure runs once per pending event, in
order, over the mutable `exit` flag. -/
def pollEvents (events : List WEvent) (exit : Bool) : Bool :=
  events.foldl processEvent exit

/-- The `while !exit` render loop (src/lib.rs:98-129), driven by the
finite stream of event batches the environment delivers (one batch per
`poll_events` call).  Each iteration draws, presents, then polls.  The
result is the trace of loop actions together with `true` when the loop
terminated (the exit flag became true) and `false` when the modelled
event stream ran out while the loop was still running (the real loop
would keep spinning on empty batches, never reaching teardown). -/
def runLoop : List (List WEvent) → List Act × Bool
  | [] => ([], false)
  | b :: bs =>
    if pollEvents b false then ([Act.draw, Act.present], true)
    else
      let r := runLoop bs
      (Act.draw :: Act.present :: r.1, r.2)

/-- The pre-loop setup of `with_window` projected to the actions the
claims mention: context creation (src/lib.rs:75), making the context
current (line 87), then `RndrHndlr::init` (line 95). -/
def withWindowSetup : List Act :=
  [Act.createContext, Act.makeCurrent, Act.init]

/-- The whole of `with_window` as an action trace: setup, then the render
loop, then — only if the loop terminated — `destroy_context`
(src/lib.rs:131). -/
def with_window (batches : List (List WEvent)) : List Act :=
  withWindowSetup ++ (runLoop batches).1 ++
    (if (runLoop batches).2 then [Act.destroyContext] else [])

/-- The exit code of a `with_window` example's process: when the loop
terminates, `with_window` and then `main` return normally and the process
exits 0.  `none` models the non-terminating run (no exit code observed). -/
def with_window_exit_code (batches : List (List WEvent)) : Option Nat :=
  if (runLoop batches).2 then some 0 else none

/-- Whether some batch of the stream contains an exit-triggering event. -/
def hasExitRequest (batches : List (List WEvent)) : Bool :=
  batches.any (fun b => b.any isExitEvent)

/-- The number of loop iterations `with_window` executes on a given event
stream: one per batch up to and including the first batch containing an
exit event. -/
def numIterations : List (List WEvent) → Nat
  | [] => 0
  | b :: bs => if pollEvents b false then 1 else 1 + numIterations bs

/-- `resizeSurface` recogniser, for counting reconfiguration calls. -/
def isResizeAction : Act → Bool
  | .resizeSurface _ _ => true
  | _ => false

/-- `refresh` (redraw request) recogniser over `with_window` events. -/
def isRefresh : WEvent → Bool
  | .refresh => true
  | _ => false

/-- Total number of redraw-request events in a stream of batches. -/
def countRefreshEvents (batches : List (List WEvent)) : Nat :=
  (batches.map (fun b => b.countP isRefresh)).sum

/-- The stream with every redraw-request event removed. -/
def stripRefresh (batches : List (List WEvent)) : List (List WEvent) :=
  batches.map (fun b => b.filter (fun e => !isRefresh e))

/-! ## The glutin bootstrap (src/bin/00_hello_window.rs)

This is the other windowing backend present in the repository.  Its
`el.run` closure handles one event at a time; we embed the closure as a
function from an event to the list of actions it performs. -/

/-- Events as matched by the `el.run` closure of 00_hello_window.rs
(lines 22-58). -/
inductive GEvent where
  | loopDestroyed
  | mainEventsCleared
  | redrawRequested
  | keyboardInput (virtualKeycode : Option VKey)
  | resized (w h : Nat)
  | closeRequested
  | otherWindowEvent
  | otherEvent
deriving DecidableEq

/-- Actions the 00_hello_window.rs closure performs. -/
inductive GAct where
  | requestRedraw
  | clearColor
  | clear
  | drawArrays (mode first cnt : Nat)
  | swapBuffers
  | resize (w h : Nat)
  | setControlFlowExit
deriving DecidableEq

/-- The body of the `el.run` closure for one event
(src/bin/00_hello_window.rs:24-58):
`LoopDestroyed` returns; `MainEventsCleared` requests a redraw;
`RedrawRequested` clears and draws then swaps buffers; a keyboard event
with keycode Escape sets `ControlFlow::Exit`; `Resized(p)` calls
`windowed_context.resize(p)`; `CloseRequested` sets `ControlFlow::Exit`;
everything else does nothing. -/
def helloWindowStep : GEvent → List GAct
  | .loopDestroyed => []
  | .mainEventsCleared => [.requestRedraw]
  | .redrawRequested => [.clearColor, .clear, .drawArrays TRIANGLES 0 3, .swapBuffers]
  | .keyboardInput (some .escape) => [.setControlFlowExit]
  | .keyboardInput _ => []
  | .resized w h => [.resize w h]
  | .closeRequested => [.setControlFlowExit]
  | .otherWindowEvent => []
  | .otherEvent => []

/-- A run of the 00_hello_window.rs event loop over the sequence of
events the windowing system delivers: the closure runs once per event,
in order. -/
def helloWindowRun : List GEvent → List GAct
  | [] => []
  | e :: rest => helloWindowStep e ++ helloWindowRun rest

/-- The ordered dimensions of the `resize` calls in a glutin action
trace. -/
def resizeCalls : List GAct → List (Nat × Nat)
  | [] => []
  | GAct.resize w h :: rest => (w, h) :: resizeCalls rest
  | _ :: rest => resizeCalls rest

/-- The ordered dimensions of the `Resized` events in a glutin event
sequence. -/
def resizedDims : List GEvent → List (Nat × Nat)
  | [] => []
  | GEvent.resized w h :: rest => (w, h) :: resizedDims rest
  | _ :: rest => resizedDims rest

/-! ## Shader compile / link status checks

Every scene duplicates the same two helpers, e.g.
src/bin/hello_triangle.rs:133-149:

    fn handle_shader_compile_errors(gl, shader) {
        if !gl.get_shader_compile_status(shader) {
            eprintln!("Shader compile error: LOG");
            std::process::exit(1);
        }
    }

and the same with "Shader link error" for `get_program_link_status`.
We embed each as a function of the status the driver reports and the
driver's info log, returning `some (stderrMessage, exitCode)` when the
process terminates there and `none` when it proceeds. -/

/-- `handle_shader_compile_errors`: on a false compile status, print the
driver's log to stderr and exit with code 1; otherwise proceed. -/
def handle_shader_compile_errors (compileStatus : Bool) (infoLog : String) :
    Option (String × Nat) :=
  if !compileStatus then some ("Shader compile error: " ++ infoLog, 1) else none

/-- `handle_program_link_errors`: same shape, with the link status and
the program info log. -/
def handle_program_link_errors (linkStatus : Bool) (infoLog : String) :
    Option (String × Nat) :=
  if !linkStatus then some ("Shader link error: " ++ infoLog, 1) else none

/-! ## `Error::from_error_code` and the post-draw error check
(src/bin/06_framebuffers_01.rs:29-52 and 169-172, identical in
06_framebuffers_02.rs) -/

/-- The `Error` enum of the framebuffer examples. -/
inductive GlError where
  | noError
  | invalidEnum
  | invalidValue
  | invalidOperation
  | invalidFramebufferOperation
  | outOfMemory
  | unknownError
deriving DecidableEq

/-- `Error::from_error_code`: the match on the glow error constants, with
a wildcard arm mapping everything else to `UnknownError`. -/
def from_error_code (errorCode : Nat) : GlError :=
  if errorCode = NO_ERROR then .noError
  else if errorCode = INVALID_ENUM then .invalidEnum
  else if errorCode = INVALID_VALUE then .invalidValue
  else if errorCode = INVALID_OPERATION then .invalidOperation
  else if errorCode = INVALID_FRAMEBUFFER_OPERATION then .invalidFramebufferOperation
  else if errorCode = OUT_OF_MEMORY then .outOfMemory
  else .unknownError

/-- The post-draw check of both framebuffer examples:

    let ecode = gl.get_error();
    if ecode != glow::NO_ERROR {
        panic!("GL Error! - ...", Error::from_error_code(ecode));
    }

`some e` models the panic carrying the decoded error `e`; `none` models
the loop continuing. -/
def post_draw_error_check (ecode : Nat) : Option GlError :=
  if ecode ≠ NO_ERROR then some (from_error_code ecode) else none

/-! ## The framebuffer-completeness check

Both framebuffer examples guard framebuffer creation with
(06_framebuffers_01.rs:136-138, and twice in 06_framebuffers_02.rs):

    if !gl.check_framebuffer_status(glow::DRAW_FRAMEBUFFER) == glow::FRAMEBUFFER_COMPLETE {
        panic!("Error creating framebuffer!");
    }

In Rust, `!` binds to `gl.check_framebuffer_status(..)` — a `u32` — and
is bitwise complement, so the condition is
`(bitwise-not status) == FRAMEBUFFER_COMPLETE`, not
`status != FRAMEBUFFER_COMPLETE`. -/

/-- Bitwise complement on a 32-bit unsigned value (Rust `!x` for `x: u32`),
over naturals: for `x < 2^32`, `!x = 2^32 - 1 - x`. -/
def bitnot32 (x : Nat) : Nat := 4294967295 - x % 4294967296

/-- Whether the completeness guard of the framebuffer examples panics
with "Error creating framebuffer!", as the source computes it. -/
def check_framebuffer_panics (status : Nat) : Bool :=
  bitnot32 status == FRAMEBUFFER_COMPLETE

/-! ## Quad scene data and draw calls
(src/bin/shaders_01.rs and src/bin/05_textures_01.rs)

The vertex component values are `f32` literals; all of them are exactly
representable, so we embed them as rationals. -/

/-- `TRI_VERTICES` of shaders_01.rs: 4 vertices of 3 position components
each. -/
def shaders01_TRI_VERTICES : List ℚ :=
  [-1/2, -1/2, 0,
    1/2, -1/2, 0,
    1/2, 1/2, 0,
   -1/2, 1/2, 0]

/-- `TRI_VERTICE_INDEXES` of shaders_01.rs: two triangles forming a
quad. -/
def shaders01_TRI_VERTICE_INDEXES : List Nat := [0, 1, 2, 0, 2, 3]

/-- `TRI_VERTICES` of 05_textures_01.rs: 4 vertices of 9 components each
(3 position, 4 color, 2 texture coordinates). -/
def textures01_TRI_VERTICES : List ℚ :=
  [-1/2, -1/2, 0, 1, 0, 0, 1, 0, 0,
    1/2, -1/2, 0, 0, 1, 0, 1, 0, 1,
    1/2, 1/2, 0, 0, 0, 1, 1, 1, 1,
   -1/2, 1/2, 0, 1/2, 1/2, 1/2, 1, 1, 0]

/-- `TRI_VERTICE_INDEXES` of 05_textures_01.rs. -/
def textures01_TRI_VERTICE_INDEXES : List Nat := [0, 1, 2, 0, 2, 3]

/-- An indexed draw call as issued through `gl.draw_elements(mode, count,
element_type, offset)`. -/
structure DrawElementsCall where
  mode : Nat
  drawCount : Nat
  elementType : Nat
  offset : Nat
deriving DecidableEq

/-- The draw call of `Shaders01::draw` (src/bin/shaders_01.rs:163):
`gl.draw_elements(glow::TRIANGLES, 6, glow::UNSIGNED_INT, 0)`. -/
def shaders01_draw_elements : DrawElementsCall :=
  { mode := TRIANGLES, drawCount := 6, elementType := UNSIGNED_INT, offset := 0 }

/-- The draw call of `Textures01::draw` (src/bin/05_textures_01.rs:224):
`gl.draw_elements(glow::TRIANGLES, 6, glow::UNSIGNED_INT, 0)`. -/
def textures01_draw_elements : DrawElementsCall :=
  { mode := TRIANGLES, drawCount := 6, elementType := UNSIGNED_INT, offset := 0 }

/-! ## Helper lemmas about the `with_window` loop -/

/-- Folding the `poll_events` closure over a batch sets the exit flag iff
it was already set or some event of the batch matches an exit pattern. -/
theorem pollEvents_eq (evs : List WEvent) (e : Bool) :
    pollEvents evs e = (e || evs.any isExitEvent) := by
  induction evs generalizing e with
  | nil => simp [pollEvents]
  | cons ev rest ih =>
    have h1 : pollEvents (ev :: rest) e = pollEvents rest (processEvent e ev) := rfl
    rw [h1, ih]
    cases hev : isExitEvent ev <;> cases e <;> simp [processEvent, hev]

/-- The render loop terminates exactly when some delivered batch contains
an exit-triggering event. -/
theorem runLoop_snd (batches : List (List WEvent)) :
    (runLoop batches).2 = hasExitRequest batches := by
  induction batches with
  | nil => simp [runLoop, hasExitRequest]
  | cons b bs ih =>
    have hb : pollEvents b false = b.any isExitEvent := by
      rw [pollEvents_eq]; simp
    rw [runLoop, hb]
    cases h : b.any isExitEvent
    · simp only [Bool.false_eq_true, if_false]
      show (runLoop bs).2 = hasExitRequest (b :: bs)
      rw [ih]
      simp [hasExitRequest, h]
    · simp [hasExitRequest, h]

/-- Occurrence counts in the loop trace: `draw` and `present` occur once
per executed iteration; nothing else occurs at all. -/
theorem runLoop_count (batches : List (List WEvent)) (a : Act) :
    (runLoop batches).1.count a =
      (if a = Act.draw ∨ a = Act.present then numIterations batches else 0) := by
  induction batches with
  | nil => simp [runLoop, numIterations]
  | cons b bs ih =>
    rw [runLoop, numIterations]
    cases hb : pollEvents b false
    · simp only [if_neg (by simp [hb] : ¬(pollEvents b false = true)), if_false]
      by_cases ha : a = Act.draw ∨ a = Act.present
      · rcases ha with h | h <;> subst h <;>
          simp [List.count_cons, ih, Nat.add_comm, hb]
      · push_neg at ha
        simp [List.count_cons, ih, ha.1, ha.2, hb,
          (by simpa using ha.1 : ¬(a = Act.draw)),
          (by simpa using ha.2 : ¬(a = Act.present))]
    · simp only [if_pos hb, if_true]
      by_cases ha : a = Act.draw ∨ a = Act.present
      · rcases ha with h | h <;> subst h <;> simp [List.count_cons]
      · push_neg at ha
        simp [List.count_cons, ha.1, ha.2]

/-- When the loop terminates, its trace ends with the final iteration's
`draw`/`present` pair (the poll that set the exit flag emits nothing). -/
theorem runLoop_shape (batches : List (List WEvent))
    (h : (runLoop batches).2 = true) :
    ∃ p, (runLoop batches).1 = p ++ [Act.draw, Act.present] := by
  induction batches with
  | nil => simp [runLoop] at h
  | cons b bs ih =>
    rw [runLoop] at h ⊢
    cases hb : pollEvents b false
    · simp only [hb, Bool.false_eq_true, if_false] at h ⊢
      obtain ⟨p, hp⟩ := ih h
      refine ⟨Act.draw :: Act.present :: p, ?_⟩
      show Act.draw :: Act.present :: (runLoop bs).1 = _
      rw [hp]
      rfl
    · exact ⟨[], by simp [hb]⟩

/-- The loop trace contains no surface-reconfiguration action: the
`poll_events` closure ignores resize events. -/
theorem runLoop_countP_resize (batches : List (List WEvent)) :
    (runLoop batches).1.countP isResizeAction = 0 := by
  induction batches with
  | nil => rfl
  | cons b bs ih =>
    rw [runLoop]
    cases hb : pollEvents b false
    · simp only [hb, Bool.false_eq_true, if_false]
      show (Act.draw :: Act.present :: (runLoop bs).1).countP isResizeAction = 0
      simp [List.countP_cons, isResizeAction, ih]
    · simp [List.countP_cons, isResizeAction]

/-- Counting one action over the whole `with_window` trace splits over
its three segments. -/
theorem with_window_count (batches : List (List WEvent)) (a : Act) :
    (with_window batches).count a =
      withWindowSetup.count a + (runLoop batches).1.count a +
        (if (runLoop batches).2 then [Act.destroyContext].count a else 0) := by
  rw [with_window, List.count_append, List.count_append]
  cases h : (runLoop batches).2 <;> simp [h]

/-! ## Helper lemmas about the glutin bootstrap -/

/-- `resizeCalls` distributes over append. -/
theorem resizeCalls_append (xs ys : List GAct) :
    resizeCalls (xs ++ ys) = resizeCalls xs ++ resizeCalls ys := by
  induction xs with
  | nil => rfl
  | cons x rest ih => cases x <;> simp [resizeCalls, ih]

/-- Per-event resize behaviour of the glutin closure: a `Resized` event
emits exactly its own dimensions; every other event emits no resize. -/
theorem helloWindowStep_resize (e : GEvent) :
    resizeCalls (helloWindowStep e) = resizedDims [e] := by
  cases e
  case keyboardInput k =>
    rcases k with _ | v
    · simp [helloWindowStep, resizeCalls, resizedDims]
    · cases v <;> simp [helloWindowStep, resizeCalls, resizedDims]
  all_goals simp [helloWindowStep, resizeCalls, resizedDims]

/-- The glutin run performs the resize calls of its events, in order,
with the events' dimensions. -/
theorem helloWindowRun_resize (evs : List GEvent) :
    resizeCalls (helloWindowRun evs) = resizedDims evs := by
  induction evs with
  | nil => rfl
  | cons e rest ih =>
    rw [helloWindowRun, resizeCalls_append, ih, helloWindowStep_resize]
    show resizedDims [e] ++ resizedDims rest = resizedDims (e :: rest)
    cases e <;> simp [resizedDims]

/-- Per-event swap-buffers count of the glutin closure. -/
theorem helloWindowStep_count_swap (e : GEvent) :
    (helloWindowStep e).count GAct.swapBuffers =
      (if e = GEvent.redrawRequested then 1 else 0) := by
  cases e
  case keyboardInput k =>
    rcases k with _ | v
    · simp [helloWindowStep]
    · cases v <;> simp [helloWindowStep]
  all_goals simp [helloWindowStep, List.count_cons]

/-- Per-event draw-arrays count of the glutin closure. -/
theorem helloWindowStep_count_draw (e : GEvent) :
    (helloWindowStep e).count (GAct.drawArrays TRIANGLES 0 3) =
      (if e = GEvent.redrawRequested then 1 else 0) := by
  cases e
  case keyboardInput k =>
    rcases k with _ | v
    · simp [helloWindowStep]
    · cases v <;> simp [helloWindowStep]
  all_goals simp [helloWindowStep, List.count_cons]

/-- Swap-buffers count over a whole glutin run: one per redraw request. -/
theorem helloWindowRun_count_swap (evs : List GEvent) :
    (helloWindowRun evs).count GAct.swapBuffers =
      evs.count GEvent.redrawRequested := by
  induction evs with
  | nil => rfl
  | cons e rest ih =>
    rw [helloWindowRun, List.count_append, ih, helloWindowStep_count_swap,
      List.count_cons]
    by_cases h : e = GEvent.redrawRequested <;> simp [h, Nat.add_comm]

/-- Draw-arrays count over a whole glutin run: one per redraw request. -/
theorem helloWindowRun_count_draw (evs : List GEvent) :
    (helloWindowRun evs).count (GAct.drawArrays TRIANGLES 0 3) =
      evs.count GEvent.redrawRequested := by
  induction evs with
  | nil => rfl
  | cons e rest ih =>
    rw [helloWindowRun, List.count_append, ih, helloWindowStep_count_draw,
      List.count_cons]
    by_cases h : e = GEvent.redrawRequested <;> simp [h, Nat.add_comm]

/-! ## Helper lemmas: redraw-request events are invisible to `with_window` -/

/-- A redraw-request event is not an exit event, so filtering redraw
requests out of a batch does not change whether the batch sets the exit
flag. -/
theorem any_filter_refresh (b : List WEvent) :
    (b.filter (fun e => !isRefresh e)).any isExitEvent = b.any isExitEvent := by
  induction b with
  | nil => rfl
  | cons e rest ih =>
    rw [List.filter_cons]
    cases he : isRefresh e
    · show (e :: List.filter (fun e => !isRefresh e) rest).any isExitEvent =
        (e :: rest).any isExitEvent
      rw [List.any_cons, List.any_cons, ih]
    · have he2 : isExitEvent e = false := by
        cases e <;> first | rfl | exact (Bool.false_ne_true he).elim
      show (List.filter (fun e => !isRefresh e) rest).any isExitEvent =
        (e :: rest).any isExitEvent
      rw [ih, List.any_cons, he2]
      exact (Bool.false_or _).symm

/-- The `with_window` render loop behaves identically whether or not
redraw-request events are delivered. -/
theorem runLoop_stripRefresh (batches : List (List WEvent)) :
    runLoop (stripRefresh batches) = runLoop batches := by
  induction batches with
  | nil => rfl
  | cons b bs ih =>
    have hb : pollEvents (b.filter (fun e => !isRefresh e)) false =
        pollEvents b false := by
      rw [pollEvents_eq, pollEvents_eq, any_filter_refresh]
    show runLoop (b.filter (fun e => !isRefresh e) :: stripRefresh bs) =
      runLoop (b :: bs)
    rw [runLoop, runLoop, hb, ih]

/-! ## Claims -/

set_option maxRecDepth 8192 in
/-- C1: the byte-view adapter was claimed to return a view of exactly
k*s bytes, byte-identical to the sequence's in-memory representation.
At the repository's own call sites the receiver is a `&[f32]` (or
`&[u32]`), so `size_of::<T>()` is the size of the fat reference — 16
bytes on a 64-bit target — not the 4-byte element size: for the 9-element
`TRI_VERTICES` slice of hello_triangle.rs (k = 9, s = 4, slice bytes
modelled as 36 sevens followed by 108 bytes of adjacent memory) the code
produces a 144-byte view that is not the slice's 36-byte representation,
while the length the source intended (element size 4 in place of 16)
would reproduce the representation exactly. -/
theorem C1_as_mem_bytes_wrong_length :
    (as_mem_bytes 16 9 (List.replicate 36 7 ++ List.replicate 108 9)).length = 144
    ∧ 144 ≠ 9 * 4
    ∧ as_mem_bytes 16 9 (List.replicate 36 7 ++ List.replicate 108 9) ≠
        List.replicate 36 7
    ∧ as_mem_bytes 4 9 (List.replicate 36 7 ++ List.replicate 108 9) =
        List.replicate 36 7 := by
  decide

/-- C3: the framebuffer-completeness guard was claimed to abort whenever
the status differs from FRAMEBUFFER_COMPLETE and to proceed when it
equals it.  Because `!` in the source is bitwise complement on the `u32`
status, the guard compares `bitnot32 status` with FRAMEBUFFER_COMPLETE:
it does not fire on the incomplete status 36054
(FRAMEBUFFER_INCOMPLETE_ATTACHMENT, 0x8CD6), it does not fire on
FRAMEBUFFER_COMPLETE either, and the only 32-bit status that would make
it panic is 4294931242 = bitnot32 FRAMEBUFFER_COMPLETE, which is not a
value `CheckFramebufferStatus` can return. -/
theorem C3_framebuffer_check_never_fires :
    check_framebuffer_panics 36054 = false
    ∧ 36054 ≠ FRAMEBUFFER_COMPLETE
    ∧ check_framebuffer_panics FRAMEBUFFER_COMPLETE = false
    ∧ check_framebuffer_panics 4294931242 = true := by
  decide

/-- C9: both quad scenes (shaders_01 and 05_textures_01) upload 4
vertices (12 floats at 3 components, resp. 36 floats at 9 components)
and a 6-entry index buffer of two triangles, and their draw hooks issue
`draw_elements` with mode TRIANGLES, a count of exactly 6 and index type
UNSIGNED_INT. -/
theorem C9_quad_indexed_draw :
    shaders01_TRI_VERTICES.length = 4 * 3
    ∧ shaders01_TRI_VERTICE_INDEXES.length = 6
    ∧ shaders01_draw_elements.drawCount = shaders01_TRI_VERTICE_INDEXES.length
    ∧ shaders01_draw_elements.elementType = UNSIGNED_INT
    ∧ shaders01_draw_elements.mode = TRIANGLES
    ∧ textures01_TRI_VERTICES.length = 4 * 9
    ∧ textures01_TRI_VERTICE_INDEXES.length = 6
    ∧ textures01_draw_elements.drawCount = textures01_TRI_VERTICE_INDEXES.length
    ∧ textures01_draw_elements.elementType = UNSIGNED_INT
    ∧ textures01_draw_elements.mode = TRIANGLES :=
  ⟨rfl, rfl, rfl, rfl, rfl, rfl, rfl, rfl, rfl, rfl⟩

/-- C6: in every run of the `with_window` bootstrap the handler's `init`
hook runs exactly once, and the trace starts with context creation,
making the context current, then `init`, with no further `init` (so every
`draw`, which can only occur in the remaining tail, comes strictly after
it, and `init` precedes the whole event loop). -/
theorem C6_init_once_before_loop :
    ∀ batches : List (List WEvent),
      (with_window batches).count Act.init = 1
      ∧ ∃ tail, with_window batches =
            [Act.createContext, Act.makeCurrent, Act.init] ++ tail
          ∧ tail.count Act.init = 0 := by
  intro batches
  constructor
  · rw [with_window_count, runLoop_count]
    cases h : (runLoop batches).2 <;>
      simp [withWindowSetup, List.count_cons]
  · refine ⟨(runLoop batches).1 ++
      (if (runLoop batches).2 then [Act.destroyContext] else []), ?_, ?_⟩
    · simp [with_window, withWindowSetup, List.append_assoc]
    · rw [List.count_append, runLoop_count]
      cases h : (runLoop batches).2 <;> simp [h]

/-- C2 (counterexample): the claim says the exit hook runs exactly once
when a close is requested; on the concrete run where the user requests a
close in the first event batch, the handler's exit hook is not invoked
once (it is never invoked: `with_window` contains no call to
`RenderHandler::exit`). -/
theorem C2_counterexample :
    ¬ ((with_window [[WEvent.closeRequested]]).count Act.exitHook = 1) := by
  decide

/-- C2 (amended): the `with_window` bootstrap never invokes the handler's
exit hook on any run; when a close is requested (and only then) the event
loop terminates, and `destroy_context` then runs exactly once. -/
theorem C2_exit_hook_never_called :
    ∀ batches : List (List WEvent),
      (with_window batches).count Act.exitHook = 0
      ∧ (runLoop batches).2 = hasExitRequest batches
      ∧ (with_window batches).count Act.destroyContext =
          (if hasExitRequest batches then 1 else 0) := by
  intro batches
  refine ⟨?_, runLoop_snd batches, ?_⟩
  · rw [with_window_count, runLoop_count]
    cases h : (runLoop batches).2 <;>
      simp [withWindowSetup, List.count_cons]
  · rw [with_window_count, runLoop_count, ← runLoop_snd]
    cases h : (runLoop batches).2 <;>
      simp [h, withWindowSetup, List.count_cons]

/-- C10: the exit flag of the `with_window` loop is monotone — a true
flag survives any event, a false flag becomes true exactly on a
`Destroyed`, `CloseRequested` or Escape-key event, a whole poll leaves a
true flag true — and once the flag is set the trace ends immediately
after the current iteration with a single `destroy_context` and nothing
beyond it. -/
theorem C10_exit_flag_monotone :
    (∀ ev, processEvent true ev = true)
    ∧ (∀ ev, processEvent false ev = isExitEvent ev)
    ∧ (∀ ev, isExitEvent ev = true ↔
        (ev = WEvent.destroyed ∨ ev = WEvent.closeRequested ∨
          ev = WEvent.key (some VKey.escape)))
    ∧ (∀ evs, pollEvents evs true = true)
    ∧ (∀ batches, (runLoop batches).2 = true →
        ∃ p, with_window batches =
            p ++ [Act.draw, Act.present, Act.destroyContext]
          ∧ p.count Act.destroyContext = 0) := by
  refine ⟨?_, ?_, ?_, ?_, ?_⟩
  · intro ev; cases hev : isExitEvent ev <;> simp [processEvent, hev]
  · intro ev; cases hev : isExitEvent ev <;> simp [processEvent, hev]
  · intro ev
    constructor
    · intro h
      cases ev
      case destroyed => exact Or.inl rfl
      case closeRequested => exact Or.inr (Or.inl rfl)
      case key k =>
        rcases k with _ | v
        · exact (Bool.false_ne_true h).elim
        · cases v
          · exact Or.inr (Or.inr rfl)
          · exact (Bool.false_ne_true h).elim
      case refresh => exact (Bool.false_ne_true h).elim
      case resized w h2 => exact (Bool.false_ne_true h).elim
      case otherEvent => exact (Bool.false_ne_true h).elim
    · rintro (rfl | rfl | rfl) <;> rfl
  · intro evs; rw [pollEvents_eq]; simp
  · intro batches h
    obtain ⟨q, hq⟩ := runLoop_shape batches h
    refine ⟨withWindowSetup ++ q, ?_, ?_⟩
    · rw [with_window, hq, if_pos h]
      simp [List.append_assoc]
    · rw [List.count_append]
      have h0 : (runLoop batches).1.count Act.destroyContext = 0 := by
        rw [runLoop_count]; simp
      rw [hq, List.count_append] at h0
      have hq0 : q.count Act.destroyContext = 0 := by omega
      simp [withWindowSetup, List.count_cons, hq0]

/-- C10 (witness): the terminating-run part of the theorem applied to the
concrete run where the first batch requests a close. -/
theorem C10_witness :
    (runLoop [[WEvent.closeRequested]]).2 = true
    ∧ ∃ p, with_window [[WEvent.closeRequested]] =
          p ++ [Act.draw, Act.present, Act.destroyContext]
        ∧ p.count Act.destroyContext = 0 :=
  ⟨by decide,
    C10_exit_flag_monotone.2.2.2.2 [[WEvent.closeRequested]] (by decide)⟩

/-- C4 (counterexample): the claim says N window resizes yield exactly N
reconfiguration calls with the new dimensions, in every example's event
loop; on the concrete `with_window` run that receives one resize event
and then a close request, the number of surface-reconfiguration calls is
not 1 (it is 0: the `poll_events` closure has no arm for resize events). -/
theorem C4_counterexample :
    ¬ ((with_window [[WEvent.resized 100 200], [WEvent.closeRequested]]).countP
        isResizeAction = 1) := by
  decide

/-- C4 (amended): in the glutin bootstrap (00_hello_window.rs) the resize
calls of a run are exactly the dimensions of its `Resized` events, in
order — N resizes yield N calls with the events' new physical
dimensions; the surfman bootstrap (`with_window`), by contrast, ignores
resize events and performs no reconfiguration call on any run. -/
theorem C4_resize_per_backend :
    (∀ evs : List GEvent, resizeCalls (helloWindowRun evs) = resizedDims evs)
    ∧ (∀ batches : List (List WEvent),
        (with_window batches).countP isResizeAction = 0) := by
  refine ⟨helloWindowRun_resize, ?_⟩
  intro batches
  rw [with_window, List.countP_append, List.countP_append,
    runLoop_countP_resize]
  cases h : (runLoop batches).2 <;>
    simp [withWindowSetup, List.countP_cons, isResizeAction]

/-- C5 (counterexample): the claim says draw-then-present happens exactly
once per redraw request and only in response to one, in every bootstrap;
on the concrete `with_window` run containing a single close-request event
and no redraw request at all, the number of draws is not the number of
redraw requests (it is 1 against 0: the loop draws unconditionally every
iteration). -/
theorem C5_counterexample :
    ¬ ((with_window [[WEvent.closeRequested]]).count Act.draw =
        countRefreshEvents [[WEvent.closeRequested]]) := by
  decide

/-- C5 (amended): in the glutin bootstrap the draw-and-swap sequence runs
exactly once per `RedrawRequested` event; in the surfman bootstrap
(`with_window`) the draw-then-present pair runs exactly once per loop
iteration, unconditionally — removing every redraw-request event from the
input changes nothing about the run. -/
theorem C5_draw_per_redraw_or_iteration :
    (∀ evs : List GEvent,
        (helloWindowRun evs).count GAct.swapBuffers =
          evs.count GEvent.redrawRequested)
    ∧ (∀ evs : List GEvent,
        (helloWindowRun evs).count (GAct.drawArrays TRIANGLES 0 3) =
          evs.count GEvent.redrawRequested)
    ∧ (∀ batches, with_window (stripRefresh batches) = with_window batches)
    ∧ (∀ batches, (with_window batches).count Act.draw = numIterations batches)
    ∧ (∀ batches,
        (with_window batches).count Act.present = numIterations batches) := by
  refine ⟨helloWindowRun_count_swap, helloWindowRun_count_draw, ?_, ?_, ?_⟩
  · intro batches
    rw [with_window, with_window, runLoop_stripRefresh]
  · intro batches
    rw [with_window_count, runLoop_count]
    cases h : (runLoop batches).2 <;>
      simp [withWindowSetup, List.count_cons]
  · intro batches
    rw [with_window_count, runLoop_count]
    cases h : (runLoop batches).2 <;>
      simp [withWindowSetup, List.count_cons]

/-- C7: a false shader-compile status makes the helper print the driver
log to stderr prefixed "Shader compile error: " and terminate the process
with exit code 1, a true status proceeds; the link-status helper behaves
the same with "Shader link error: "; and a run of the `with_window` loop
on which a close is requested terminates the process normally with exit
code 0. -/
theorem C7_shader_failure_aborts :
    (∀ log, handle_shader_compile_errors false log =
        some ("Shader compile error: " ++ log, 1))
    ∧ (∀ log, handle_shader_compile_errors true log = none)
    ∧ (∀ log, handle_program_link_errors false log =
        some ("Shader link error: " ++ log, 1))
    ∧ (∀ log, handle_program_link_errors true log = none)
    ∧ (∀ batches, hasExitRequest batches = true →
        with_window_exit_code batches = some 0) := by
  refine ⟨fun log => rfl, fun log => rfl, fun log => rfl, fun log => rfl, ?_⟩
  intro batches h
  have h2 : (runLoop batches).2 = true := by rw [runLoop_snd]; exact h
  simp [with_window_exit_code, h2]

/-- C7 (witness): the theorem applied at a concrete failing log and at
the concrete run that requests a close. -/
theorem C7_witness :
    handle_shader_compile_errors false "bad shader" =
      some ("Shader compile error: bad shader", 1)
    ∧ hasExitRequest [[WEvent.closeRequested]] = true
    ∧ with_window_exit_code [[WEvent.closeRequested]] = some 0 :=
  ⟨C7_shader_failure_aborts.1 "bad shader", by decide,
    C7_shader_failure_aborts.2.2.2.2 [[WEvent.closeRequested]] (by decide)⟩

/-- C8: the post-draw error check of both framebuffer examples panics
with the decoded error exactly when `get_error` returns something other
than NO_ERROR, and continues when it returns NO_ERROR; the decoder maps
each glow error constant to its enum variant and everything else to
UnknownError. -/
theorem C8_post_draw_error_check_aborts :
    (∀ ecode, ecode ≠ NO_ERROR →
        post_draw_error_check ecode = some (from_error_code ecode))
    ∧ post_draw_error_check NO_ERROR = none
    ∧ from_error_code NO_ERROR = GlError.noError
    ∧ from_error_code INVALID_ENUM = GlError.invalidEnum
    ∧ from_error_code INVALID_VALUE = GlError.invalidValue
    ∧ from_error_code INVALID_OPERATION = GlError.invalidOperation
    ∧ from_error_code INVALID_FRAMEBUFFER_OPERATION =
        GlError.invalidFramebufferOperation
    ∧ from_error_code OUT_OF_MEMORY = GlError.outOfMemory
    ∧ from_error_code 9999 = GlError.unknownError := by
  refine ⟨?_, by decide, by decide, by decide, by decide, by decide,
    by decide, by decide, by decide⟩
  intro ecode h
  simp [post_draw_error_check, h]

/-- C8 (witness): the abort branch of the theorem at the concrete error
code 1282 (INVALID_OPERATION). -/
theorem C8_witness :
    (1282 : Nat) ≠ NO_ERROR
    ∧ post_draw_error_check 1282 = some (from_error_code 1282) :=
  ⟨by decide, C8_post_draw_error_check_aborts.1 1282 (by decide)⟩
